import Mathlib

/-!
Shallow embedding of the order-lifecycle and position-reconciliation engine
of `trading_bot.py` (class `TradingBot`), together with theorems checking the
natural-language specification against it.

Python `Decimal` quantities and prices are modelled by `ℚ` (exact decimal
arithmetic); exchange-collaborator responses (order results, fills, BBO
quotes, positions) are passed in as explicit parameters, so every stateful
method becomes a pure function from its inputs and the collaborator's
responses to its observable effects.
-/

namespace TradingBot

/-- Embedding of the `TradingConfig` dataclass (the fields the engine's
control flow reads; `ticker`, `contract_id`, `exchange` only flow into log
strings and are omitted). -/
structure TradingConfig where
  quantity : ℚ
  take_profit : ℚ
  tick_size : ℚ
  direction : String
  max_orders : Nat
  wait_time : ℚ
  grid_step : ℚ
  stop_price : ℚ
  pause_price : ℚ
  boost_mode : Bool
  close_retry_max : Nat
  close_retry_timeout : Nat

/-- Embedding of `TradingConfig.close_order_side`:
`return 'buy' if self.direction == "sell" else 'sell'`. -/
def TradingConfig.close_order_side (c : TradingConfig) : String :=
  if c.direction == "sell" then "buy" else "sell"

/-- An entry of the list returned by `get_active_orders`. -/
structure ActiveOrder where
  order_id : Nat
  side : String
  price : ℚ
  size : ℚ

/-- An entry of `self.active_close_orders`
(`{'id': ..., 'price': ..., 'size': ...}`). -/
structure CloseOrderEntry where
  id : Nat
  price : ℚ
  size : ℚ

/-- The filtering loop shared by `run` and `_log_status_periodically`:
`for order in active_orders: if order.side == self.config.close_order_side:
append {...}`. -/
def filterCloseOrders (closeSide : String) (orders : List ActiveOrder) :
    List CloseOrderEntry :=
  orders.filterMap fun o =>
    if o.side == closeSide then some ⟨o.order_id, o.price, o.size⟩ else none

/-- Embedding of `active_close_amount = sum(Decimal(order.get('size', 0)) for order in
self.active_close_orders if isinstance(order, dict))`: every appended entry
is a dict carrying `size`, so this is the sum of the sizes. -/
def activeCloseAmount (l : List CloseOrderEntry) : ℚ :=
  (l.map (·.size)).sum

/-- Observable outcome of one (non-throttled, non-failing) execution of the
body of `_log_status_periodically`. -/
structure StatusCheckResult where
  active_close_orders : List CloseOrderEntry
  notified : Bool
  shutdown_requested : Bool
  mismatch_detected : Bool

/-- Body of `_log_status_periodically` (the path where the broker queries
succeed): refresh `active_close_orders`, sum their sizes, fetch the signed
position, and flag a mismatch exactly when
`abs(position_amt - active_close_amount) > (2 * self.config.quantity)`;
on mismatch send the notification and set `shutdown_requested`. -/
def logStatusBody (cfg : TradingConfig) (shutdownBefore : Bool)
    (activeOrders : List ActiveOrder) (position_amt : ℚ) : StatusCheckResult :=
  let closes := filterCloseOrders cfg.close_order_side activeOrders
  let amt := activeCloseAmount closes
  if 2 * cfg.quantity < |position_amt - amt| then
    { active_close_orders := closes
      notified := true
      shutdown_requested := true
      mismatch_detected := true }
  else
    { active_close_orders := closes
      notified := false
      shutdown_requested := shutdownBefore
      mismatch_detected := false }

/-- Embedding of `_log_status_periodically` including its 60-second throttle: the body
runs only when `time.time() - self.last_log_time > 60 or
self.last_log_time == 0`; otherwise the method returns `None` (falsy to the
caller), modelled as `none`. -/
def logStatusPeriodically (cfg : TradingConfig) (shutdownBefore : Bool)
    (now lastLogTime : ℚ) (activeOrders : List ActiveOrder)
    (position_amt : ℚ) : Option StatusCheckResult :=
  if 60 < now - lastLogTime ∨ lastLogTime = 0 then
    some (logStatusBody cfg shutdownBefore activeOrders position_amt)
  else
    none

/-- Environment inputs of one iteration of the main loop in `run`:
collaborator responses and the time-dependent gates, made explicit. -/
structure IterEnv where
  activeOrders : List ActiveOrder
  position_amt : ℚ
  checkDue : Bool
  stop_trading : Bool
  pause_trading : Bool
  waitTimePositive : Bool
  gridStepMet : Bool

/-- Observable outcome of one iteration of the body of the main loop in
`run`. `mismatchNotified` is the alert sent from inside
`_log_status_periodically`; `openOrderPlaced` records whether
`_place_and_monitor_open_order` was invoked (the only path in the loop body
that places any order); `shutdownAfter` is `self.shutdown_requested` at the
end of the iteration, the negation of the `while` guard for the next one. -/
structure IterResult where
  mismatchNotified : Bool
  mismatchDetected : Bool
  openOrderPlaced : Bool
  shutdownAfter : Bool

/-- One iteration of the body of the main loop in `run`: refresh the close
orders, run the (possibly throttled) periodic status check, then the
stop/pause gates, then — only when no mismatch was detected — the wait-time
and grid-step gates before placing a new opening order. The stop branch
calls `graceful_shutdown`, which sets `shutdown_requested`. -/
def runIteration (cfg : TradingConfig) (shutdownBefore : Bool)
    (env : IterEnv) : IterResult :=
  let statusRes :=
    if env.checkDue then
      some (logStatusBody cfg shutdownBefore env.activeOrders env.position_amt)
    else none
  let mismatch := match statusRes with
    | some r => r.mismatch_detected
    | none => false
  let notified := match statusRes with
    | some r => r.notified
    | none => false
  let shutdown1 := match statusRes with
    | some r => r.shutdown_requested
    | none => shutdownBefore
  if env.stop_trading then
    { mismatchNotified := notified
      mismatchDetected := mismatch
      openOrderPlaced := false
      shutdownAfter := true }
  else if env.pause_trading then
    { mismatchNotified := notified
      mismatchDetected := mismatch
      openOrderPlaced := false
      shutdownAfter := shutdown1 }
  else if ¬ mismatch then
    if env.waitTimePositive then
      { mismatchNotified := notified
        mismatchDetected := mismatch
        openOrderPlaced := false
        shutdownAfter := shutdown1 }
    else if ¬ env.gridStepMet then
      { mismatchNotified := notified
        mismatchDetected := mismatch
        openOrderPlaced := false
        shutdownAfter := shutdown1 }
    else
      { mismatchNotified := notified
        mismatchDetected := mismatch
        openOrderPlaced := true
        shutdownAfter := shutdown1 }
  else
    { mismatchNotified := notified
      mismatchDetected := mismatch
      openOrderPlaced := false
      shutdownAfter := shutdown1 }

/-- The guard of the main loop: `while not self.shutdown_requested`. -/
def runLoopGuard (shutdownRequested : Bool) : Bool :=
  ! shutdownRequested

/-- Embedding of `should_wait` from `_handle_order_result`:
for a buy, `new_order_price <= order_result_price`; for a sell,
`new_order_price >= order_result_price`; any other direction yields
`False`. -/
def should_wait (direction : String) (new_order_price order_result_price : ℚ) :
    Bool :=
  if direction == "buy" then
    decide (new_order_price ≤ order_result_price)
  else if direction == "sell" then
    decide (new_order_price ≥ order_result_price)
  else
    false

/-- The seconds slept between two checks of the reprice loop
(`await asyncio.sleep(5)`). -/
def repriceSleepSeconds : Nat := 5

/-- The decision taken by the reprice loop at each check. -/
inductive RepriceAction where
  | wait
  | cancel
deriving DecidableEq

/-- One check of the reprice loop in `_handle_order_result`: the loop body
(sleep and re-check) runs while
`should_wait(direction, new_order_price, order_result.price) and
current_order_status == "OPEN"`; as soon as the guard fails, control falls
through to cancelling the order. -/
def repriceCheck (direction : String) (current_order_status : String)
    (new_order_price order_result_price : ℚ) : RepriceAction :=
  if should_wait direction new_order_price order_result_price
      && (current_order_status == "OPEN") then
    RepriceAction.wait
  else
    RepriceAction.cancel

/-- The take-profit close price of `_handle_order_result`:
`filled_price * (1 + take_profit/100)` for a sell close,
`filled_price * (1 - take_profit/100)` for a buy close. -/
def takeProfitPrice (cfg : TradingConfig) (filled_price : ℚ) : ℚ :=
  if cfg.close_order_side == "sell" then
    filled_price * (1 + cfg.take_profit / 100)
  else
    filled_price * (1 - cfg.take_profit / 100)

/-- Whether a close order is submitted to the exchange as a market order
(`place_market_order`) or a limit order (`place_close_order`). -/
inductive OrderKind where
  | market
  | limit
deriving DecidableEq

/-- A close-order placement issued by `_handle_order_result`. -/
structure ClosePlacement where
  kind : OrderKind
  quantity : ℚ
  price : Option ℚ
  side : String
deriving DecidableEq

/-- The close-order placement decided by `_handle_order_result`.
Fill branch (`order_filled_event.is_set() or order_result.status ==
'FILLED'`): boost mode calls `place_market_order(contract, config.quantity,
close_order_side)`, otherwise a limit `place_close_order` for
`config.quantity` at the take-profit price. Cancel branch (after the reprice
loop and cancellation, when `order_filled_amount > 0`): boost mode calls
`place_close_order(contract, order_filled_amount, filled_price, close_side)`
— a limit order at the original fill price — and non-boost a limit order for
`order_filled_amount` at the take-profit price. When nothing filled, no
close order is placed. -/
def handleOrderResultClose (cfg : TradingConfig) (eventSet : Bool)
    (order_result_status : String) (filled_price : ℚ)
    (order_filled_amount : ℚ) : Option ClosePlacement :=
  if eventSet || (order_result_status == "FILLED") then
    if cfg.boost_mode then
      some ⟨OrderKind.market, cfg.quantity, none, cfg.close_order_side⟩
    else
      some ⟨OrderKind.limit, cfg.quantity, some (takeProfitPrice cfg filled_price),
        cfg.close_order_side⟩
  else if 0 < order_filled_amount then
    if cfg.boost_mode then
      some ⟨OrderKind.limit, order_filled_amount, some filled_price,
        cfg.close_order_side⟩
    else
      some ⟨OrderKind.limit, order_filled_amount,
        some (takeProfitPrice cfg filled_price), cfg.close_order_side⟩
  else
    none

/-- A structured order-update message as delivered to
`order_update_handler` (the object-with-attributes shape; the keyed-mapping
shape is normalized to the same fields after the contract filter). -/
structure WsMessage where
  order_id : Nat
  status : String
  side : String
  filled_size : ℚ
  size : ℚ
  price : ℚ

/-- The engine state mutated by `order_update_handler`. -/
structure MonitorState where
  current_order_status : Option String
  order_filled_amount : ℚ
  order_filled_price : ℚ
  filledEventSet : Bool
  canceledEventSet : Bool
deriving DecidableEq

/-- Embedding of `order_update_handler` from `_setup_websocket_handlers`: classify the
message as OPEN/CLOSE by comparing its side with the configured direction,
mirror the status for OPEN orders, and on FILLED / CANCELED /
PARTIALLY_FILLED update the filled bookkeeping and set the corresponding
event. A PARTIALLY_FILLED update for an OPEN order records `filled_size`
and `price` and sets `order_filled_event`, exactly like a full fill. -/
def orderUpdateHandler (cfg : TradingConfig) (st : MonitorState)
    (msg : WsMessage) : MonitorState :=
  let orderType := if msg.side == cfg.direction then "OPEN" else "CLOSE"
  let st :=
    if orderType == "OPEN" then
      { st with current_order_status := some msg.status }
    else st
  if msg.status == "FILLED" then
    if orderType == "OPEN" then
      { st with
          order_filled_amount := msg.filled_size
          order_filled_price := msg.price
          filledEventSet := true }
    else
      { st with filledEventSet := true }
  else if msg.status == "CANCELED" then
    if orderType == "OPEN" then
      { st with
          order_filled_amount := msg.filled_size
          canceledEventSet := true }
    else st
  else if msg.status == "PARTIALLY_FILLED" then
    if orderType == "OPEN" then
      { st with
          order_filled_amount := msg.filled_size
          order_filled_price := msg.price
          filledEventSet := true }
    else st
  else st

/-- Embedding of `_meet_grid_step_condition`: with no active close orders the gate is
met; otherwise pick the nearest close order (min price for a buy bot, max
for a sell bot), fetch the BBO pair and raise
`ValueError("No bid/ask data available")` when `best_bid <= 0 or
best_ask <= 0 or best_bid >= best_ask`, then compare the would-be new close
price against the nearest one with the grid-step ratio. -/
def meet_grid_step_condition (cfg : TradingConfig)
    (active_close_orders : List CloseOrderEntry) (best_bid best_ask : ℚ) :
    Except String Bool :=
  match active_close_orders with
  | [] => Except.ok true
  | o :: rest =>
    let l := o :: rest
    let next_close_order :=
      if cfg.direction == "buy" then (l.argmin (·.price)).getD o
      else (l.argmax (·.price)).getD o
    let next_close_price := next_close_order.price
    if best_bid ≤ 0 ∨ best_ask ≤ 0 ∨ best_bid ≥ best_ask then
      Except.error "No bid/ask data available"
    else if cfg.direction == "buy" then
      let new_order_close_price := best_ask * (1 + cfg.take_profit / 100)
      Except.ok (decide (1 + cfg.grid_step / 100 <
        next_close_price / new_order_close_price))
    else if cfg.direction == "sell" then
      let new_order_close_price := best_bid * (1 - cfg.take_profit / 100)
      Except.ok (decide (1 + cfg.grid_step / 100 <
        new_order_close_price / next_close_price))
    else
      Except.error "Invalid direction"

/-- Embedding of `_check_price_condition`: returns `(stop_trading, pause_trading)`. When
both configured prices are `-1` it returns without fetching the BBO;
otherwise it raises `ValueError("No bid/ask data available")` on an invalid
pair before comparing prices. -/
def check_price_condition (cfg : TradingConfig) (best_bid best_ask : ℚ) :
    Except String (Bool × Bool) :=
  if cfg.pause_price = cfg.stop_price ∧ cfg.stop_price = -1 then
    Except.ok (false, false)
  else if best_bid ≤ 0 ∨ best_ask ≤ 0 ∨ best_bid ≥ best_ask then
    Except.error "No bid/ask data available"
  else
    let stop_trading :=
      cfg.stop_price ≠ -1 ∧
        ((cfg.direction = "buy" ∧ cfg.stop_price ≤ best_ask) ∨
         (cfg.direction = "sell" ∧ best_bid ≤ cfg.stop_price))
    let pause_trading :=
      cfg.pause_price ≠ -1 ∧
        ((cfg.direction = "buy" ∧ cfg.pause_price ≤ best_ask) ∨
         (cfg.direction = "sell" ∧ best_bid ≤ cfg.pause_price))
    Except.ok (decide stop_trading, decide pause_trading)

/-- Exchange interactions performed by `_close_position_simple`, in
order. -/
inductive CloseEvent where
  | cancelOrder (id : Nat)
  | placeLimit (quantity price : ℚ) (side : String)
  | cancelCloseOrder
  | placeMarket (quantity : ℚ) (side : String)
  | verify (residual : ℚ)
deriving DecidableEq

/-- Collaborator responses for one iteration of the close-retry loop of
`_close_position_simple`: the BBO pair fetched at that attempt, whether
`place_close_order` succeeded, whether `_wait_for_order_fill` reported a
fill, and the fresh `get_account_positions` value queried after a fill. -/
structure CloseAttempt where
  best_bid : ℚ
  best_ask : ℚ
  placeSuccess : Bool
  filled : Bool
  residual : ℚ

/-- The limit price of retry attempt `attempt` (1-indexed) in
`_close_position_simple`:
`best_bid - tick_size * max(0, attempt - 1)` for a sell close and
`best_ask + tick_size * max(0, attempt - 1)` for a buy close. The BBO pair
is consumed with no validity check. -/
def closeAttemptPrice (close_side : String) (best_bid best_ask tick_size : ℚ)
    (attempt : Nat) : ℚ :=
  if close_side == "sell" then
    best_bid - tick_size * ((max 0 (attempt - 1) : ℕ) : ℚ)
  else
    best_ask + tick_size * ((max 0 (attempt - 1) : ℕ) : ℚ)

/-- The retry loop `for attempt in range(1, close_retry_max + 1)` of
`_close_position_simple`, run over the per-attempt collaborator responses
(one list entry per remaining attempt), with `k` the 1-indexed number of the
next attempt. Returns the verified residual position when some attempt
filled and verified below the dust threshold (success), together with the
trace of exchange interactions. A failed placement moves on to the next
attempt; a fill whose fresh position query is not below `0.001` in
magnitude is not success and the loop retries further; an unfilled attempt
is cancelled before the next attempt. -/
def closeRetryGo (cfg : TradingConfig) (close_side : String)
    (close_quantity : ℚ) : Nat → List CloseAttempt →
    Option ℚ × List CloseEvent
  | _, [] => (none, [])
  | k, a :: rest =>
    let price := closeAttemptPrice close_side a.best_bid a.best_ask
      cfg.tick_size k
    let ev := CloseEvent.placeLimit close_quantity price close_side
    if a.placeSuccess then
      if a.filled then
        if |a.residual| < 1 / 1000 then
          (some a.residual, [ev, CloseEvent.verify a.residual])
        else
          let r := closeRetryGo cfg close_side close_quantity (k + 1) rest
          (r.1, ev :: CloseEvent.verify a.residual :: r.2)
      else
        let r := closeRetryGo cfg close_side close_quantity (k + 1) rest
        (r.1, ev :: CloseEvent.cancelCloseOrder :: r.2)
    else
      let r := closeRetryGo cfg close_side close_quantity (k + 1) rest
      (r.1, ev :: r.2)

/-- Collaborator responses for one market-order placement
(`place_close_market_order` / `place_market_order`) and its follow-up fill
wait and fresh position query. -/
structure MarketOutcome where
  placeSuccess : Bool
  filled : Bool
  residual : ℚ

/-- Observable outcome of `_close_position_simple`. -/
structure CloseResult where
  close_side : String
  close_quantity : ℚ
  events : List CloseEvent
  success : Bool
  verifiedResidual : Option ℚ

/-- The block of `_close_position_simple` entered when no boost-mode market
close succeeded at placement (`close_result is None or not
close_result.success`): the limit retry loop, then — when it does not
verify a close — a market fallback when the collaborator supports one, its
fill verified against the dust threshold; with no market path the call
reports failure. `boostEvents` carries the trace of a boost-mode market
placement that failed, when there was one. -/
def closeEscalationRest (cfg : TradingConfig) (close_side : String)
    (close_quantity : ℚ) (hasCloseMarket hasGeneralMarket : Bool)
    (fallbackOutcome : MarketOutcome) (attempts : List CloseAttempt)
    (boostEvents : List CloseEvent) : List CloseEvent × Bool × Option ℚ :=
  match (closeRetryGo cfg close_side close_quantity 1 attempts).1 with
  | some r =>
    (boostEvents ++ (closeRetryGo cfg close_side close_quantity 1 attempts).2,
      true, some r)
  | none =>
    if hasCloseMarket || hasGeneralMarket then
      if fallbackOutcome.placeSuccess then
        if fallbackOutcome.filled then
          if |fallbackOutcome.residual| < 1 / 1000 then
            (boostEvents ++
                (closeRetryGo cfg close_side close_quantity 1 attempts).2 ++
                [CloseEvent.placeMarket close_quantity close_side,
                 CloseEvent.verify fallbackOutcome.residual],
              true, some fallbackOutcome.residual)
          else
            (boostEvents ++
                (closeRetryGo cfg close_side close_quantity 1 attempts).2 ++
                [CloseEvent.placeMarket close_quantity close_side,
                 CloseEvent.verify fallbackOutcome.residual],
              false, none)
        else
          (boostEvents ++
              (closeRetryGo cfg close_side close_quantity 1 attempts).2 ++
              [CloseEvent.placeMarket close_quantity close_side],
            false, none)
      else
        (boostEvents ++
            (closeRetryGo cfg close_side close_quantity 1 attempts).2 ++
            [CloseEvent.placeMarket close_quantity close_side],
          false, none)
    else
      (boostEvents ++ (closeRetryGo cfg close_side close_quantity 1 attempts).2,
        false, none)

/-- The part of `_close_position_simple` that runs after the preamble
(cancel active orders, re-fetch the position, derive side and quantity).
Returns the trace of exchange interactions, the boolean result of the
call, and the verified residual position when the call succeeded. In boost
mode with a market-capable collaborator a market close is placed first
and, on successful placement, the call succeeds only when the fill
verifies with residual magnitude below `0.001`; otherwise control falls to
the limit retry loop and market fallback of `closeEscalationRest`. -/
def closeEscalation (cfg : TradingConfig) (close_side : String)
    (close_quantity : ℚ) (hasCloseMarket hasGeneralMarket : Bool)
    (boostOutcome fallbackOutcome : MarketOutcome)
    (attempts : List CloseAttempt) : List CloseEvent × Bool × Option ℚ :=
  if cfg.boost_mode && (hasCloseMarket || hasGeneralMarket) then
    if boostOutcome.placeSuccess then
      if boostOutcome.filled then
        if |boostOutcome.residual| < 1 / 1000 then
          ([CloseEvent.placeMarket close_quantity close_side,
             CloseEvent.verify boostOutcome.residual],
            true, some boostOutcome.residual)
        else
          ([CloseEvent.placeMarket close_quantity close_side,
             CloseEvent.verify boostOutcome.residual],
            false, none)
      else
        ([CloseEvent.placeMarket close_quantity close_side], false, none)
    else
      closeEscalationRest cfg close_side close_quantity hasCloseMarket
        hasGeneralMarket fallbackOutcome attempts
        [CloseEvent.placeMarket close_quantity close_side]
  else
    closeEscalationRest cfg close_side close_quantity hasCloseMarket
      hasGeneralMarket fallbackOutcome attempts []

/-- Embedding of `_close_position_simple(quantity, entry_price)` on its non-exception
paths. It first cancels every active order on the contract, then re-fetches
the broker position and derives `close_side = 'sell' if actual_position > 0
else 'buy'` and `close_quantity = abs(actual_position)` — the `quantity`
and `entry_price` arguments are never used for the close. The escalation
(boost market close, limit retry loop, market fallback) then runs on the
derived side and quantity. -/
def close_position_simple (cfg : TradingConfig) (quantity entry_price : ℚ)
    (activeOrders : List ActiveOrder) (actual_position : ℚ)
    (hasCloseMarket hasGeneralMarket : Bool)
    (boostOutcome fallbackOutcome : MarketOutcome)
    (attempts : List CloseAttempt) : CloseResult :=
  let cancelEvents := activeOrders.map fun o => CloseEvent.cancelOrder o.order_id
  let close_side := if 0 < actual_position then "sell" else "buy"
  let close_quantity := |actual_position|
  let core := closeEscalation cfg close_side close_quantity hasCloseMarket
    hasGeneralMarket boostOutcome fallbackOutcome attempts
  { close_side := close_side
    close_quantity := close_quantity
    events := cancelEvents ++ core.1
    success := core.2.1
    verifiedResidual := core.2.2 }

/-- The number of limit close attempts in a trace: the count of
`place_close_order` calls. -/
def countLimitPlacements (events : List CloseEvent) : Nat :=
  events.countP fun e =>
    match e with
    | CloseEvent.placeLimit _ _ _ => true
    | _ => false

/-- A sample non-boost configuration: a buy bot trading `0.1` units with
tick size `0.5` and three close retries. -/
def sampleConfig : TradingConfig :=
  { quantity := 1 / 10
    take_profit := 1
    tick_size := 1 / 2
    direction := "buy"
    max_orders := 10
    wait_time := 450
    grid_step := -100
    stop_price := -1
    pause_price := -1
    boost_mode := false
    close_retry_max := 3
    close_retry_timeout := 60 }

/-- A sample boost-mode configuration (same as `sampleConfig` but with
`boost_mode = True`). -/
def boostConfig : TradingConfig :=
  { sampleConfig with boost_mode := true }

/-- The number of market-order placements in a trace. -/
def countMarketPlacements (events : List CloseEvent) : Nat :=
  events.countP fun e =>
    match e with
    | CloseEvent.placeMarket _ _ => true
    | _ => false

/-! ### Helper lemmas -/

/-- When the status check flags a mismatch it has also sent the alert and
set the shutdown flag. -/
lemma logStatusBody_mismatch (cfg : TradingConfig) (sb : Bool)
    (orders : List ActiveOrder) (p : ℚ)
    (h : (logStatusBody cfg sb orders p).mismatch_detected = true) :
    (logStatusBody cfg sb orders p).notified = true ∧
    (logStatusBody cfg sb orders p).shutdown_requested = true := by
  unfold logStatusBody at *
  by_cases hc : 2 * cfg.quantity <
      |p - activeCloseAmount (filterCloseOrders cfg.close_order_side orders)|
  · simp [hc]
  · simp [hc] at h

lemma closeRetryGo_nil (cfg : TradingConfig) (side : String) (q : ℚ)
    (k : Nat) : closeRetryGo cfg side q k [] = (none, []) := rfl

lemma closeRetryGo_cons_eq (cfg : TradingConfig) (side : String) (q : ℚ)
    (k : Nat) (a : CloseAttempt) (rest : List CloseAttempt) :
    closeRetryGo cfg side q k (a :: rest) =
      if a.placeSuccess then
        if a.filled then
          if |a.residual| < 1 / 1000 then
            (some a.residual,
              [CloseEvent.placeLimit q
                (closeAttemptPrice side a.best_bid a.best_ask cfg.tick_size k)
                side,
               CloseEvent.verify a.residual])
          else
            ((closeRetryGo cfg side q (k + 1) rest).1,
              CloseEvent.placeLimit q
                (closeAttemptPrice side a.best_bid a.best_ask cfg.tick_size k)
                side ::
              CloseEvent.verify a.residual ::
              (closeRetryGo cfg side q (k + 1) rest).2)
        else
          ((closeRetryGo cfg side q (k + 1) rest).1,
            CloseEvent.placeLimit q
              (closeAttemptPrice side a.best_bid a.best_ask cfg.tick_size k)
              side ::
            CloseEvent.cancelCloseOrder ::
            (closeRetryGo cfg side q (k + 1) rest).2)
      else
        ((closeRetryGo cfg side q (k + 1) rest).1,
          CloseEvent.placeLimit q
            (closeAttemptPrice side a.best_bid a.best_ask cfg.tick_size k)
            side ::
          (closeRetryGo cfg side q (k + 1) rest).2) := rfl

/-- When the retry loop reports success, the verified residual is below the
dust threshold and was obtained from a position query recorded in the
trace. -/
lemma closeRetryGo_some (cfg : TradingConfig) (side : String) (q : ℚ)
    (attempts : List CloseAttempt) :
    ∀ (k : Nat) (r : ℚ), (closeRetryGo cfg side q k attempts).1 = some r →
      |r| < 1 / 1000 ∧
      CloseEvent.verify r ∈ (closeRetryGo cfg side q k attempts).2 := by
  induction attempts with
  | nil =>
    intro k r h
    simp [closeRetryGo_nil] at h
  | cons a rest ih =>
    intro k r h
    rw [closeRetryGo_cons_eq] at h ⊢
    split_ifs at h ⊢ with hp hf hr
    · simp at h ⊢
      subst h
      exact ⟨by simpa using hr, rfl⟩
    · simp at h ⊢
      obtain ⟨h1, h2⟩ := ih (k + 1) r h
      exact ⟨by simpa using h1, Or.inr h2⟩
    · simp at h ⊢
      obtain ⟨h1, h2⟩ := ih (k + 1) r h
      exact ⟨by simpa using h1, h2⟩
    · simp at h ⊢
      obtain ⟨h1, h2⟩ := ih (k + 1) r h
      exact ⟨by simpa using h1, h2⟩

/-- The retry loop issues at most one limit placement per remaining
attempt. -/
lemma closeRetryGo_count (cfg : TradingConfig) (side : String) (q : ℚ)
    (attempts : List CloseAttempt) :
    ∀ k : Nat,
      countLimitPlacements (closeRetryGo cfg side q k attempts).2 ≤
        attempts.length := by
  induction attempts with
  | nil =>
    intro k
    simp [closeRetryGo_nil, countLimitPlacements]
  | cons a rest ih =>
    intro k
    rw [closeRetryGo_cons_eq]
    split_ifs with hp hf hr
    · simp [countLimitPlacements, List.countP_cons]
    · have := ih (k + 1)
      simp [countLimitPlacements, List.countP_cons] at this ⊢
      omega
    · have := ih (k + 1)
      simp [countLimitPlacements, List.countP_cons] at this ⊢
      omega
    · have := ih (k + 1)
      simp [countLimitPlacements, List.countP_cons] at this ⊢
      omega

/-- Each executed iteration of the retry loop places a limit order at
exactly the price computed by `closeAttemptPrice` from that iteration's BBO
pair — unconditionally, with no validity check on the pair. -/
lemma closeRetryGo_head (cfg : TradingConfig) (side : String) (q : ℚ)
    (k : Nat) (a : CloseAttempt) (rest : List CloseAttempt) :
    ∃ evs, (closeRetryGo cfg side q k (a :: rest)).2 =
      CloseEvent.placeLimit q
        (closeAttemptPrice side a.best_bid a.best_ask cfg.tick_size k)
        side :: evs := by
  rw [closeRetryGo_cons_eq]
  split_ifs with hp hf hr
  · exact ⟨_, rfl⟩
  · exact ⟨_, rfl⟩
  · exact ⟨_, rfl⟩
  · exact ⟨_, rfl⟩

lemma countLimitPlacements_append (l1 l2 : List CloseEvent) :
    countLimitPlacements (l1 ++ l2) =
      countLimitPlacements l1 + countLimitPlacements l2 :=
  List.countP_append _ _ _

lemma countLimitPlacements_cancels (orders : List ActiveOrder) :
    countLimitPlacements
      (orders.map fun o => CloseEvent.cancelOrder o.order_id) = 0 := by
  induction orders with
  | nil => rfl
  | cons o rest ih =>
    simp [countLimitPlacements, List.countP_cons, ih]

lemma closeEscalationRest_eq_some (cfg : TradingConfig) (side : String)
    (q : ℚ) (hCM hGM : Bool) (fo : MarketOutcome)
    (attempts : List CloseAttempt) (bevs : List CloseEvent) (r : ℚ)
    (hl : (closeRetryGo cfg side q 1 attempts).1 = some r) :
    closeEscalationRest cfg side q hCM hGM fo attempts bevs =
      (bevs ++ (closeRetryGo cfg side q 1 attempts).2, true, some r) := by
  unfold closeEscalationRest
  rw [hl]

lemma closeEscalationRest_eq_none (cfg : TradingConfig) (side : String)
    (q : ℚ) (hCM hGM : Bool) (fo : MarketOutcome)
    (attempts : List CloseAttempt) (bevs : List CloseEvent)
    (hl : (closeRetryGo cfg side q 1 attempts).1 = none) :
    closeEscalationRest cfg side q hCM hGM fo attempts bevs =
      (if hCM || hGM then
        if fo.placeSuccess then
          if fo.filled then
            if |fo.residual| < 1 / 1000 then
              (bevs ++ (closeRetryGo cfg side q 1 attempts).2 ++
                  [CloseEvent.placeMarket q side,
                   CloseEvent.verify fo.residual],
                true, some fo.residual)
            else
              (bevs ++ (closeRetryGo cfg side q 1 attempts).2 ++
                  [CloseEvent.placeMarket q side,
                   CloseEvent.verify fo.residual],
                false, none)
          else
            (bevs ++ (closeRetryGo cfg side q 1 attempts).2 ++
                [CloseEvent.placeMarket q side],
              false, none)
        else
          (bevs ++ (closeRetryGo cfg side q 1 attempts).2 ++
              [CloseEvent.placeMarket q side],
            false, none)
      else
        (bevs ++ (closeRetryGo cfg side q 1 attempts).2, false, none)) := by
  unfold closeEscalationRest
  rw [hl]

/-- A successful `closeEscalationRest` result carries a verified residual
below the dust threshold, recorded by a position-query event in the
trace. -/
lemma closeEscalationRest_success (cfg : TradingConfig) (side : String)
    (q : ℚ) (hCM hGM : Bool) (fo : MarketOutcome)
    (attempts : List CloseAttempt) (bevs : List CloseEvent)
    (hs : (closeEscalationRest cfg side q hCM hGM fo attempts bevs).2.1 = true) :
    ∃ r, (closeEscalationRest cfg side q hCM hGM fo attempts bevs).2.2 = some r ∧
      |r| < 1 / 1000 ∧
      CloseEvent.verify r ∈
        (closeEscalationRest cfg side q hCM hGM fo attempts bevs).1 := by
  rcases hl : (closeRetryGo cfg side q 1 attempts).1 with _ | r
  · rw [closeEscalationRest_eq_none cfg side q hCM hGM fo attempts bevs hl]
      at hs ⊢
    split_ifs at hs ⊢ with h1 h2 h3 h4
    exact ⟨fo.residual, rfl, h4, by simp⟩
  · rw [closeEscalationRest_eq_some cfg side q hCM hGM fo attempts bevs r hl]
    obtain ⟨hr1, hr2⟩ := closeRetryGo_some cfg side q attempts 1 r hl
    exact ⟨r, rfl, hr1, List.mem_append_right _ hr2⟩

/-- A successful `closeEscalation` result carries a verified residual below
the dust threshold, recorded by a position-query event in the trace. -/
lemma closeEscalation_success (cfg : TradingConfig) (side : String) (q : ℚ)
    (hCM hGM : Bool) (bo fo : MarketOutcome) (attempts : List CloseAttempt)
    (hs : (closeEscalation cfg side q hCM hGM bo fo attempts).2.1 = true) :
    ∃ r, (closeEscalation cfg side q hCM hGM bo fo attempts).2.2 = some r ∧
      |r| < 1 / 1000 ∧
      CloseEvent.verify r ∈
        (closeEscalation cfg side q hCM hGM bo fo attempts).1 := by
  unfold closeEscalation at hs ⊢
  by_cases h1 : (cfg.boost_mode && (hCM || hGM)) = true
  · rw [if_pos h1] at hs ⊢
    by_cases h2 : bo.placeSuccess = true
    · rw [if_pos h2] at hs ⊢
      by_cases h3 : bo.filled = true
      · rw [if_pos h3] at hs ⊢
        by_cases h4 : |bo.residual| < 1 / 1000
        · rw [if_pos h4] at hs ⊢
          exact ⟨bo.residual, rfl, h4, by simp⟩
        · rw [if_neg h4] at hs
          simp at hs
      · rw [if_neg h3] at hs
        simp at hs
    · rw [if_neg h2] at hs ⊢
      exact closeEscalationRest_success cfg side q hCM hGM fo attempts _ hs
  · rw [if_neg h1] at hs ⊢
    exact closeEscalationRest_success cfg side q hCM hGM fo attempts _ hs

/-- The escalation block issues at most one limit placement per configured
retry attempt, on top of those already in `boostEvents`. -/
lemma closeEscalationRest_count (cfg : TradingConfig) (side : String)
    (q : ℚ) (hCM hGM : Bool) (fo : MarketOutcome)
    (attempts : List CloseAttempt) (bevs : List CloseEvent) :
    countLimitPlacements
        (closeEscalationRest cfg side q hCM hGM fo attempts bevs).1 ≤
      countLimitPlacements bevs + attempts.length := by
  have hloop := closeRetryGo_count cfg side q attempts 1
  rcases hl : (closeRetryGo cfg side q 1 attempts).1 with _ | r
  · rw [closeEscalationRest_eq_none cfg side q hCM hGM fo attempts bevs hl]
    split_ifs <;>
      simp [countLimitPlacements_append, countLimitPlacements,
        List.countP_cons] at hloop ⊢ <;>
      omega
  · rw [closeEscalationRest_eq_some cfg side q hCM hGM fo attempts bevs r hl]
    simp [countLimitPlacements_append, countLimitPlacements] at hloop ⊢
    omega

/-- With boost mode off, the whole escalation issues at most one limit
placement per configured retry attempt. -/
lemma closeEscalation_count (cfg : TradingConfig) (side : String) (q : ℚ)
    (hCM hGM : Bool) (bo fo : MarketOutcome) (attempts : List CloseAttempt)
    (hboost : cfg.boost_mode = false) :
    countLimitPlacements
        (closeEscalation cfg side q hCM hGM bo fo attempts).1 ≤
      attempts.length := by
  have h := closeEscalationRest_count cfg side q hCM hGM fo attempts []
  unfold closeEscalation
  simp only [hboost, Bool.false_and, Bool.false_eq_true, if_false]
  simpa [countLimitPlacements] using h

/-- When the retry loop does not verify a close: a market fallback is
placed exactly when the collaborator has a market path, and without one the
escalation fails. -/
lemma closeEscalationRest_fallback (cfg : TradingConfig) (side : String)
    (q : ℚ) (hCM hGM : Bool) (fo : MarketOutcome)
    (attempts : List CloseAttempt) (bevs : List CloseEvent)
    (hl : (closeRetryGo cfg side q 1 attempts).1 = none) :
    ((hCM || hGM) = true →
      CloseEvent.placeMarket q side ∈
        (closeEscalationRest cfg side q hCM hGM fo attempts bevs).1) ∧
    ((hCM || hGM) = false →
      (closeEscalationRest cfg side q hCM hGM fo attempts bevs).2.1 = false) := by
  rw [closeEscalationRest_eq_none cfg side q hCM hGM fo attempts bevs hl]
  constructor
  · intro hm
    rw [if_pos hm]
    split_ifs <;> simp
  · intro hm
    rw [if_neg (by simp [hm])]

lemma closeEscalation_of_not_boost (cfg : TradingConfig) (side : String)
    (q : ℚ) (hCM hGM : Bool) (bo fo : MarketOutcome)
    (attempts : List CloseAttempt) (hboost : cfg.boost_mode = false) :
    closeEscalation cfg side q hCM hGM bo fo attempts =
      closeEscalationRest cfg side q hCM hGM fo attempts [] := by
  unfold closeEscalation
  simp [hboost]

lemma close_position_simple_close_side (cfg : TradingConfig)
    (q e : ℚ) (orders : List ActiveOrder) (pos : ℚ) (hCM hGM : Bool)
    (bo fo : MarketOutcome) (atts : List CloseAttempt) :
    (close_position_simple cfg q e orders pos hCM hGM bo fo atts).close_side =
      (if 0 < pos then "sell" else "buy") := rfl

lemma close_position_simple_close_quantity (cfg : TradingConfig)
    (q e : ℚ) (orders : List ActiveOrder) (pos : ℚ) (hCM hGM : Bool)
    (bo fo : MarketOutcome) (atts : List CloseAttempt) :
    (close_position_simple cfg q e orders pos hCM hGM bo fo atts).close_quantity =
      |pos| := rfl

lemma close_position_simple_events (cfg : TradingConfig)
    (q e : ℚ) (orders : List ActiveOrder) (pos : ℚ) (hCM hGM : Bool)
    (bo fo : MarketOutcome) (atts : List CloseAttempt) :
    (close_position_simple cfg q e orders pos hCM hGM bo fo atts).events =
      (orders.map fun o => CloseEvent.cancelOrder o.order_id) ++
      (closeEscalation cfg (if 0 < pos then "sell" else "buy") |pos|
        hCM hGM bo fo atts).1 := rfl

lemma close_position_simple_success (cfg : TradingConfig)
    (q e : ℚ) (orders : List ActiveOrder) (pos : ℚ) (hCM hGM : Bool)
    (bo fo : MarketOutcome) (atts : List CloseAttempt) :
    (close_position_simple cfg q e orders pos hCM hGM bo fo atts).success =
      (closeEscalation cfg (if 0 < pos then "sell" else "buy") |pos|
        hCM hGM bo fo atts).2.1 := rfl

lemma close_position_simple_verified (cfg : TradingConfig)
    (q e : ℚ) (orders : List ActiveOrder) (pos : ℚ) (hCM hGM : Bool)
    (bo fo : MarketOutcome) (atts : List CloseAttempt) :
    (close_position_simple cfg q e orders pos hCM hGM bo fo atts).verifiedResidual =
      (closeEscalation cfg (if 0 < pos then "sell" else "buy") |pos|
        hCM hGM bo fo atts).2.2 := rfl

lemma countMarketPlacements_cancels (orders : List ActiveOrder) :
    countMarketPlacements
      (orders.map fun o => CloseEvent.cancelOrder o.order_id) = 0 := by
  induction orders with
  | nil => rfl
  | cons o rest ih =>
    simp [countMarketPlacements, List.countP_cons, ih]

/-! ### Claim theorems and witnesses -/

/-- Claim C1: in the periodic reconciliation check, for every reported
signed position `p` and the sum `s` of the sizes of the currently active
close orders, a position mismatch is detected if and only if
`|p − s| > 2 × quantity` (strict inequality); with `quantity = 0.1`, a
difference of `0.3` triggers and a difference of `0.15` does not. -/
theorem C1_mismatch_iff_threshold :
    (∀ (cfg : TradingConfig) (shutdownBefore : Bool)
        (orders : List ActiveOrder) (p : ℚ),
      (logStatusBody cfg shutdownBefore orders p).mismatch_detected = true ↔
        2 * cfg.quantity <
          |p - activeCloseAmount (filterCloseOrders cfg.close_order_side orders)|) ∧
    (logStatusBody sampleConfig false [⟨1, "sell", 2000, 7/10⟩]
      1).mismatch_detected = true ∧
    (logStatusBody sampleConfig false [⟨1, "sell", 2000, 17/20⟩]
      1).mismatch_detected = false := by
  have main : ∀ (cfg : TradingConfig) (shutdownBefore : Bool)
      (orders : List ActiveOrder) (p : ℚ),
      (logStatusBody cfg shutdownBefore orders p).mismatch_detected = true ↔
        2 * cfg.quantity <
          |p - activeCloseAmount (filterCloseOrders cfg.close_order_side orders)| := by
    intro cfg shutdownBefore orders p
    unfold logStatusBody
    by_cases h : 2 * cfg.quantity <
        |p - activeCloseAmount (filterCloseOrders cfg.close_order_side orders)|
    · simp [h]
    · simp [h]
  refine ⟨main, ?_, ?_⟩
  · rw [main]
    simp [activeCloseAmount, filterCloseOrders, sampleConfig,
      TradingConfig.close_order_side]
    norm_num [abs]
  · rw [← Bool.not_eq_true, main]
    simp [activeCloseAmount, filterCloseOrders, sampleConfig,
      TradingConfig.close_order_side]
    norm_num [abs]

/-- Claim C3: for every configuration whose direction is one of the two
values `buy` and `sell`, the derived close order side differs from the
configured direction and is exactly the complementary value: direction
`buy` yields close side `sell`, and direction `sell` yields close side
`buy`. -/
theorem C3_close_side_opposite (cfg : TradingConfig)
    (h : cfg.direction = "buy" ∨ cfg.direction = "sell") :
    cfg.close_order_side ≠ cfg.direction ∧
    (cfg.direction = "buy" → cfg.close_order_side = "sell") ∧
    (cfg.direction = "sell" → cfg.close_order_side = "buy") ∧
    (cfg.close_order_side = "buy" ∨ cfg.close_order_side = "sell") := by
  rcases h with h | h <;>
    simp [TradingConfig.close_order_side, h]

/-- Witness for C3 at the sample configuration (direction `buy`). -/
theorem C3_close_side_opposite_witness :
    sampleConfig.close_order_side ≠ sampleConfig.direction ∧
    (sampleConfig.direction = "buy" → sampleConfig.close_order_side = "sell") ∧
    (sampleConfig.direction = "sell" → sampleConfig.close_order_side = "buy") ∧
    (sampleConfig.close_order_side = "buy" ∨
      sampleConfig.close_order_side = "sell") :=
  C3_close_side_opposite sampleConfig (Or.inl rfl)

/-- Claim C2: whenever the reconciliation check detects a mismatch, a
notification is sent, the shutdown flag is set, no opening order is placed
in that iteration (the only order-placing path of the loop body is not
taken, so in particular no corrective order is placed either), and the main
loop's `while not shutdown_requested` guard is false at its next check. -/
theorem C2_mismatch_escalation (cfg : TradingConfig) (shutdownBefore : Bool)
    (env : IterEnv) (hdue : env.checkDue = true)
    (hmis : (logStatusBody cfg shutdownBefore env.activeOrders
      env.position_amt).mismatch_detected = true) :
    (runIteration cfg shutdownBefore env).mismatchNotified = true ∧
    (runIteration cfg shutdownBefore env).shutdownAfter = true ∧
    (runIteration cfg shutdownBefore env).openOrderPlaced = false ∧
    runLoopGuard (runIteration cfg shutdownBefore env).shutdownAfter = false := by
  obtain ⟨hnot, hshut⟩ := logStatusBody_mismatch cfg shutdownBefore
    env.activeOrders env.position_amt hmis
  unfold runIteration runLoopGuard
  rcases hstop : env.stop_trading with _ | _ <;>
    rcases hpause : env.pause_trading with _ | _ <;>
      simp [hdue, hmis, hnot, hshut, hstop, hpause]

/-- Witness for C2: E2E scenario D — reported position `1.0`, one active
close order of size `0.5`, quantity `0.1`. -/
theorem C2_mismatch_escalation_witness :
    (runIteration sampleConfig false
      ⟨[⟨1, "sell", 2000, 1/2⟩], 1, true, false, false, false, true⟩).mismatchNotified
      = true ∧
    (runIteration sampleConfig false
      ⟨[⟨1, "sell", 2000, 1/2⟩], 1, true, false, false, false, true⟩).shutdownAfter
      = true ∧
    (runIteration sampleConfig false
      ⟨[⟨1, "sell", 2000, 1/2⟩], 1, true, false, false, false, true⟩).openOrderPlaced
      = false ∧
    runLoopGuard (runIteration sampleConfig false
      ⟨[⟨1, "sell", 2000, 1/2⟩], 1, true, false, false, false, true⟩).shutdownAfter
      = false :=
  C2_mismatch_escalation sampleConfig false
    ⟨[⟨1, "sell", 2000, 1/2⟩], 1, true, false, false, false, true⟩ rfl
    (by
      simp [logStatusBody, activeCloseAmount, filterCloseOrders,
        sampleConfig, TradingConfig.close_order_side]
      norm_num [abs])

/-- Claim C8: in the reprice loop, for every newly observed price and
original order price, the engine keeps waiting (sleeping 5 seconds per
check) exactly when the order status is OPEN and the price is still
favorable — for a buy, new price ≤ original price; for a sell, new price ≥
original price — and otherwise proceeds to cancel the order. -/
theorem C8_reprice_guard (direction status : String) (newP origP : ℚ)
    (h : direction = "buy" ∨ direction = "sell") :
    (repriceCheck direction status newP origP = RepriceAction.wait ↔
      (status = "OPEN" ∧
        (direction = "buy" → newP ≤ origP) ∧
        (direction = "sell" → origP ≤ newP))) ∧
    (repriceCheck direction status newP origP = RepriceAction.cancel ↔
      ¬ (status = "OPEN" ∧
        (direction = "buy" → newP ≤ origP) ∧
        (direction = "sell" → origP ≤ newP))) ∧
    repriceSleepSeconds = 5 := by
  rcases h with h | h <;> subst h
  · by_cases hst : status = "OPEN" <;> by_cases hle : newP ≤ origP <;>
      simp [repriceCheck, should_wait, hst, hle, repriceSleepSeconds]
  · by_cases hst : status = "OPEN" <;> by_cases hle : origP ≤ newP <;>
      simp [repriceCheck, should_wait, hst, hle, repriceSleepSeconds]

/-- Witness for C8 at a buy order with status OPEN and a favorable price. -/
theorem C8_reprice_guard_witness :
    (repriceCheck "buy" "OPEN" 1995 2000 = RepriceAction.wait ↔
      ("OPEN" = "OPEN" ∧
        ("buy" = "buy" → (1995 : ℚ) ≤ 2000) ∧
        ("buy" = "sell" → (2000 : ℚ) ≤ 1995))) ∧
    (repriceCheck "buy" "OPEN" 1995 2000 = RepriceAction.cancel ↔
      ¬ ("OPEN" = "OPEN" ∧
        ("buy" = "buy" → (1995 : ℚ) ≤ 2000) ∧
        ("buy" = "sell" → (2000 : ℚ) ≤ 1995))) ∧
    repriceSleepSeconds = 5 :=
  C8_reprice_guard "buy" "OPEN" 1995 2000 (Or.inl rfl)

/-- Claim C10: a push notification reporting PARTIALLY_FILLED for the
in-flight opening order records the partial filled size and price and sets
the fill event just as for a full fill, and the main-loop fill branch then
places the close order for the full configured quantity, not for the
recorded partial filled size. -/
theorem C10_partial_fill_close_quantity (cfg : TradingConfig)
    (st : MonitorState) (msg : WsMessage)
    (hside : msg.side = cfg.direction)
    (hstatus : msg.status = "PARTIALLY_FILLED") :
    (orderUpdateHandler cfg st msg).order_filled_amount = msg.filled_size ∧
    (orderUpdateHandler cfg st msg).order_filled_price = msg.price ∧
    (orderUpdateHandler cfg st msg).filledEventSet = true ∧
    (∀ (order_result_status : String) (filled_price : ℚ), ∃ pl,
      handleOrderResultClose cfg true order_result_status filled_price
        ((orderUpdateHandler cfg st msg).order_filled_amount) = some pl ∧
      pl.quantity = cfg.quantity) := by
  have hupd : orderUpdateHandler cfg st msg =
      { st with
          current_order_status := some msg.status
          order_filled_amount := msg.filled_size
          order_filled_price := msg.price
          filledEventSet := true } := by
    unfold orderUpdateHandler
    simp [hside, hstatus]
  refine ⟨by rw [hupd], by rw [hupd], by rw [hupd], ?_⟩
  intro order_result_status filled_price
  by_cases hb : cfg.boost_mode = true
  · exact ⟨⟨OrderKind.market, cfg.quantity, none, cfg.close_order_side⟩,
      by simp [handleOrderResultClose, hb], rfl⟩
  · exact ⟨⟨OrderKind.limit, cfg.quantity,
      some (takeProfitPrice cfg filled_price), cfg.close_order_side⟩,
      by simp [handleOrderResultClose, Bool.eq_false_iff.mpr hb], rfl⟩

/-- Witness for C10: a partial fill of `0.05` against a configured
quantity of `0.1` — the close is still placed for `0.1`. -/
theorem C10_partial_fill_close_quantity_witness :
    (orderUpdateHandler sampleConfig ⟨none, 0, 0, false, false⟩
      ⟨42, "PARTIALLY_FILLED", "buy", 1/20, 1/10, 2000⟩).order_filled_amount
      = (1 : ℚ)/20 ∧
    (orderUpdateHandler sampleConfig ⟨none, 0, 0, false, false⟩
      ⟨42, "PARTIALLY_FILLED", "buy", 1/20, 1/10, 2000⟩).order_filled_price
      = 2000 ∧
    (orderUpdateHandler sampleConfig ⟨none, 0, 0, false, false⟩
      ⟨42, "PARTIALLY_FILLED", "buy", 1/20, 1/10, 2000⟩).filledEventSet
      = true ∧
    (∀ (order_result_status : String) (filled_price : ℚ), ∃ pl,
      handleOrderResultClose sampleConfig true order_result_status filled_price
        ((orderUpdateHandler sampleConfig ⟨none, 0, 0, false, false⟩
          ⟨42, "PARTIALLY_FILLED", "buy", 1/20, 1/10, 2000⟩).order_filled_amount)
        = some pl ∧
      pl.quantity = sampleConfig.quantity) :=
  C10_partial_fill_close_quantity sampleConfig ⟨none, 0, 0, false, false⟩
    ⟨42, "PARTIALLY_FILLED", "buy", 1/20, 1/10, 2000⟩ rfl rfl

/-- Counterexample to claim C9: with boost mode enabled, on the cancel path
of `_handle_order_result` (fill event not set, order not reported FILLED,
partial filled amount `0.05` recovered after cancellation), the close is
submitted with `place_close_order` — a limit order at the original fill
price — not as a market order. -/
theorem C9_counterexample :
    boostConfig.boost_mode = true ∧
    handleOrderResultClose boostConfig false "OPEN" 2000 (1/20) =
      some ⟨OrderKind.limit, 1/20, some 2000, "sell"⟩ ∧
    (handleOrderResultClose boostConfig false "OPEN" 2000 (1/20)).map
      ClosePlacement.kind ≠ some OrderKind.market := by
  have h : handleOrderResultClose boostConfig false "OPEN" 2000 (1/20) =
      some ⟨OrderKind.limit, 1/20, some 2000, "sell"⟩ := by
    simp [handleOrderResultClose, boostConfig, sampleConfig,
      TradingConfig.close_order_side]
  exact ⟨rfl, h, by rw [h]; simp⟩

/-- Claim C9 as amended: with boost mode enabled, the fill branch of
`_handle_order_result` (fill event set or placement reported FILLED)
submits the close directly as a market order for the configured quantity;
but the cancel branch (no fill signal, a positive filled amount recovered
after cancellation) submits a limit close order at the original fill price,
not a market order. -/
theorem C9_boost_close_paths (cfg : TradingConfig)
    (hboost : cfg.boost_mode = true) :
    (∀ (eventSet : Bool) (order_result_status : String) (filled_price amt : ℚ),
      eventSet = true ∨ order_result_status = "FILLED" →
      handleOrderResultClose cfg eventSet order_result_status filled_price amt =
        some ⟨OrderKind.market, cfg.quantity, none, cfg.close_order_side⟩) ∧
    (∀ (order_result_status : String) (filled_price amt : ℚ),
      order_result_status ≠ "FILLED" → 0 < amt →
      handleOrderResultClose cfg false order_result_status filled_price amt =
        some ⟨OrderKind.limit, amt, some filled_price, cfg.close_order_side⟩) := by
  constructor
  · rintro eventSet order_result_status filled_price amt (rfl | rfl) <;>
      simp [handleOrderResultClose, hboost]
  · intro order_result_status filled_price amt hst hamt
    simp [handleOrderResultClose, hboost, hst, hamt]

/-- Witness for the amended C9: both boost-mode branches evaluated at
concrete inputs. -/
theorem C9_boost_close_paths_witness :
    handleOrderResultClose boostConfig true "OPEN" 2000 (1/20) =
      some ⟨OrderKind.market, boostConfig.quantity, none,
        boostConfig.close_order_side⟩ ∧
    handleOrderResultClose boostConfig false "CANCELED" 2000 (1/20) =
      some ⟨OrderKind.limit, 1/20, some 2000, boostConfig.close_order_side⟩ :=
  ⟨(C9_boost_close_paths boostConfig rfl).1 true "OPEN" 2000 (1/20)
      (Or.inl rfl),
    (C9_boost_close_paths boostConfig rfl).2 "CANCELED" 2000 (1/20)
      (by simp) (by norm_num)⟩

/-- Claim C6: every call to `_close_position_simple` first cancels all
active orders on the contract (the trace is a cancellation of every active
order, containing no order placement, followed by the rest), derives the
close side from the sign of the freshly fetched broker position (`sell` if
positive, `buy` otherwise), uses its absolute value as the close quantity,
and ignores the caller-supplied `quantity` and `entry_price` arguments
entirely. -/
theorem C6_close_preamble (cfg : TradingConfig) (quantity entry_price : ℚ)
    (activeOrders : List ActiveOrder) (actual_position : ℚ)
    (hCM hGM : Bool) (bo fo : MarketOutcome)
    (attempts : List CloseAttempt) :
    (close_position_simple cfg quantity entry_price activeOrders
      actual_position hCM hGM bo fo attempts).close_side =
      (if 0 < actual_position then "sell" else "buy") ∧
    (close_position_simple cfg quantity entry_price activeOrders
      actual_position hCM hGM bo fo attempts).close_quantity =
      |actual_position| ∧
    (∃ rest, (close_position_simple cfg quantity entry_price activeOrders
      actual_position hCM hGM bo fo attempts).events =
      (activeOrders.map fun o => CloseEvent.cancelOrder o.order_id) ++ rest) ∧
    countLimitPlacements
      (activeOrders.map fun o => CloseEvent.cancelOrder o.order_id) = 0 ∧
    countMarketPlacements
      (activeOrders.map fun o => CloseEvent.cancelOrder o.order_id) = 0 ∧
    (∀ q' e' : ℚ,
      close_position_simple cfg q' e' activeOrders actual_position
        hCM hGM bo fo attempts =
      close_position_simple cfg quantity entry_price activeOrders
        actual_position hCM hGM bo fo attempts) :=
  ⟨rfl, rfl, ⟨_, rfl⟩, countLimitPlacements_cancels activeOrders,
    countMarketPlacements_cancels activeOrders, fun _ _ => rfl⟩

/-- Claim C4: on the non-boost close path the engine issues at most
`close_retry_max` limit close attempts; attempt `k` (1-indexed) is priced
at best bid minus `(k−1) × tick_size` for a sell close and best ask plus
`(k−1) × tick_size` for a buy close, so at a given book each retry is more
aggressive than the last by exactly one tick — strictly, as
`tick_size > 0`; after exhausting the retries without a verified close it
places a market order exactly when the collaborator supports one, and
otherwise reports failure. -/
theorem C4_bounded_retries (cfg : TradingConfig)
    (hboost : cfg.boost_mode = false) (htick : 0 < cfg.tick_size) :
    (∀ (quantity entry_price : ℚ) (activeOrders : List ActiveOrder)
        (actual_position : ℚ) (hCM hGM : Bool) (bo fo : MarketOutcome)
        (attempts : List CloseAttempt),
      attempts.length = cfg.close_retry_max →
      countLimitPlacements (close_position_simple cfg quantity entry_price
        activeOrders actual_position hCM hGM bo fo attempts).events ≤
        cfg.close_retry_max) ∧
    (∀ (b a : ℚ) (k : Nat), 1 ≤ k →
      closeAttemptPrice "sell" b a cfg.tick_size k =
        b - cfg.tick_size * ((k - 1 : ℕ) : ℚ) ∧
      closeAttemptPrice "buy" b a cfg.tick_size k =
        a + cfg.tick_size * ((k - 1 : ℕ) : ℚ)) ∧
    (∀ (b a : ℚ) (k : Nat), 1 ≤ k →
      closeAttemptPrice "sell" b a cfg.tick_size (k + 1) =
        closeAttemptPrice "sell" b a cfg.tick_size k - cfg.tick_size ∧
      closeAttemptPrice "sell" b a cfg.tick_size (k + 1) <
        closeAttemptPrice "sell" b a cfg.tick_size k ∧
      closeAttemptPrice "buy" b a cfg.tick_size (k + 1) =
        closeAttemptPrice "buy" b a cfg.tick_size k + cfg.tick_size ∧
      closeAttemptPrice "buy" b a cfg.tick_size k <
        closeAttemptPrice "buy" b a cfg.tick_size (k + 1)) ∧
    (∀ (side : String) (q : ℚ) (k : Nat) (att : CloseAttempt)
        (rest : List CloseAttempt),
      ∃ evs, (closeRetryGo cfg side q k (att :: rest)).2 =
        CloseEvent.placeLimit q
          (closeAttemptPrice side att.best_bid att.best_ask cfg.tick_size k)
          side :: evs) ∧
    (∀ (quantity entry_price : ℚ) (activeOrders : List ActiveOrder)
        (actual_position : ℚ) (hCM hGM : Bool) (bo fo : MarketOutcome)
        (attempts : List CloseAttempt),
      (closeRetryGo cfg (if 0 < actual_position then "sell" else "buy")
        |actual_position| 1 attempts).1 = none →
      ((hCM || hGM) = true →
        CloseEvent.placeMarket |actual_position|
          (if 0 < actual_position then "sell" else "buy") ∈
          (close_position_simple cfg quantity entry_price activeOrders
            actual_position hCM hGM bo fo attempts).events) ∧
      ((hCM || hGM) = false →
        (close_position_simple cfg quantity entry_price activeOrders
          actual_position hCM hGM bo fo attempts).success = false)) := by
  refine ⟨?_, ?_, ?_, ?_, ?_⟩
  · intro quantity entry_price activeOrders actual_position hCM hGM bo fo
      attempts hlen
    rw [close_position_simple_events, countLimitPlacements_append,
      countLimitPlacements_cancels, ← hlen]
    simpa using closeEscalation_count cfg
      (if 0 < actual_position then "sell" else "buy") |actual_position|
      hCM hGM bo fo attempts hboost
  · intro b a k _
    constructor <;> simp [closeAttemptPrice, Nat.zero_max]
  · intro b a k hk
    obtain ⟨j, rfl⟩ : ∃ j, k = j + 1 := ⟨k - 1, by omega⟩
    refine ⟨?_, ?_, ?_, ?_⟩ <;>
      simp [closeAttemptPrice, Nat.zero_max] <;> push_cast <;>
        [ring; nlinarith [htick]; ring; nlinarith [htick]]
  · intro side q k att rest
    exact closeRetryGo_head cfg side q k att rest
  · intro quantity entry_price activeOrders actual_position hCM hGM bo fo
      attempts hl
    have hfb := closeEscalationRest_fallback cfg
      (if 0 < actual_position then "sell" else "buy") |actual_position|
      hCM hGM fo attempts [] hl
    constructor
    · intro hm
      rw [close_position_simple_events,
        closeEscalation_of_not_boost cfg _ _ _ _ _ _ _ hboost]
      exact List.mem_append_right _ (hfb.1 hm)
    · intro hm
      rw [close_position_simple_success,
        closeEscalation_of_not_boost cfg _ _ _ _ _ _ _ hboost]
      exact hfb.2 hm

/-- Witness for C4: three configured retries, three unfilled attempts, at
most three limit placements. -/
theorem C4_bounded_retries_witness :
    countLimitPlacements (close_position_simple sampleConfig (3/100) 2000 []
      (3/100) false false ⟨false, false, 0⟩ ⟨false, false, 0⟩
      [⟨2000, 2001, true, false, 0⟩, ⟨1999, 2000, true, false, 0⟩,
       ⟨1998, 1999, true, false, 0⟩]).events ≤
      sampleConfig.close_retry_max :=
  (C4_bounded_retries sampleConfig rfl (by norm_num [sampleConfig])).1
    (3/100) 2000 [] (3/100) false false ⟨false, false, 0⟩ ⟨false, false, 0⟩
    [⟨2000, 2001, true, false, 0⟩, ⟨1999, 2000, true, false, 0⟩,
     ⟨1998, 1999, true, false, 0⟩] rfl

/-- Claim C5: the close-position operation returns success only if some
attempt reported a fill and the fresh broker position query performed after
it showed a residual magnitude strictly below `0.001`; the verified
residual is recorded in the trace, so an order reporting FILLED with a
residual at or above the threshold never by itself yields success. -/
theorem C5_success_requires_dust_verification (cfg : TradingConfig)
    (quantity entry_price : ℚ) (activeOrders : List ActiveOrder)
    (actual_position : ℚ) (hCM hGM : Bool) (bo fo : MarketOutcome)
    (attempts : List CloseAttempt)
    (hs : (close_position_simple cfg quantity entry_price activeOrders
      actual_position hCM hGM bo fo attempts).success = true) :
    ∃ r, (close_position_simple cfg quantity entry_price activeOrders
        actual_position hCM hGM bo fo attempts).verifiedResidual = some r ∧
      |r| < 1 / 1000 ∧
      CloseEvent.verify r ∈ (close_position_simple cfg quantity entry_price
        activeOrders actual_position hCM hGM bo fo attempts).events := by
  rw [close_position_simple_success] at hs
  obtain ⟨r, h1, h2, h3⟩ := closeEscalation_success cfg
    (if 0 < actual_position then "sell" else "buy") |actual_position|
    hCM hGM bo fo attempts hs
  refine ⟨r, ?_, h2, ?_⟩
  · rw [close_position_simple_verified]
    exact h1
  · rw [close_position_simple_events]
    exact List.mem_append_right _ h3

/-- Witness for C5: a single filled limit attempt verified with residual
`0` yields success. -/
theorem C5_success_requires_dust_verification_witness :
    ∃ r, (close_position_simple sampleConfig (3/100) 2000 [] (3/100)
        false false ⟨false, false, 0⟩ ⟨false, false, 0⟩
        [⟨2000, 2001, true, true, 0⟩]).verifiedResidual = some r ∧
      |r| < 1 / 1000 ∧
      CloseEvent.verify r ∈ (close_position_simple sampleConfig (3/100) 2000
        [] (3/100) false false ⟨false, false, 0⟩ ⟨false, false, 0⟩
        [⟨2000, 2001, true, true, 0⟩]).events := by
  have hl : (closeRetryGo sampleConfig
      (if (0 : ℚ) < 3/100 then "sell" else "buy") |(3/100 : ℚ)| 1
      [⟨2000, 2001, true, true, 0⟩]).1 = some 0 := by
    rw [closeRetryGo_cons_eq]
    norm_num
  have hs : (close_position_simple sampleConfig (3/100) 2000 [] (3/100)
      false false ⟨false, false, 0⟩ ⟨false, false, 0⟩
      [⟨2000, 2001, true, true, 0⟩]).success = true := by
    rw [close_position_simple_success,
      closeEscalation_of_not_boost sampleConfig _ _ _ _ _ _ _ rfl,
      closeEscalationRest_eq_some sampleConfig _ _ _ _ _ _ _ 0 hl]
  exact C5_success_requires_dust_verification sampleConfig (3/100) 2000 []
    (3/100) false false ⟨false, false, 0⟩ ⟨false, false, 0⟩
    [⟨2000, 2001, true, true, 0⟩] hs

/-- Counterexample to claim C7: `_close_position_simple` consumes the BBO
pair with no validity check — with `best_bid = best_ask = 0` (an invalid
book on every count) the first retry attempt computes the close price `0`
and places a limit order at it; no error is raised. -/
theorem C7_counterexample :
    ((0 : ℚ) ≤ 0 ∨ (0 : ℚ) ≤ 0 ∨ (0 : ℚ) ≤ 0) ∧
    closeAttemptPrice "sell" 0 0 sampleConfig.tick_size 1 = 0 ∧
    (closeRetryGo sampleConfig "sell" (1/10) 1 [⟨0, 0, true, false, 0⟩]).2 =
      [CloseEvent.placeLimit (1/10) 0 "sell",
       CloseEvent.cancelCloseOrder] ∧
    (closeRetryGo sampleConfig "sell" (1/10) 1 [⟨0, 0, true, false, 0⟩]).1 =
      none := by
  have hp : closeAttemptPrice "sell" 0 0 sampleConfig.tick_size 1 = 0 := by
    simp [closeAttemptPrice]
  refine ⟨Or.inl le_rfl, hp, ?_, ?_⟩
  · rw [closeRetryGo_cons_eq]
    simp [hp, closeRetryGo_nil]
  · rw [closeRetryGo_cons_eq]
    simp [closeRetryGo_nil]

/-- Claim C7 as amended: the grid-step gate and the stop/pause price gate
both raise the no-market-data error on a non-positive or crossed BBO pair
before computing any price, but the close-retry loop of
`_close_position_simple` consumes its BBO pair without validation: every
executed attempt places a limit order at the price computed from the pair,
whatever its values. -/
theorem C7_bbo_validation :
    (∀ (cfg : TradingConfig) (o : CloseOrderEntry)
        (rest : List CloseOrderEntry) (bid ask : ℚ),
      bid ≤ 0 ∨ ask ≤ 0 ∨ ask ≤ bid →
      meet_grid_step_condition cfg (o :: rest) bid ask =
        Except.error "No bid/ask data available") ∧
    (∀ (cfg : TradingConfig) (bid ask : ℚ),
      ¬ (cfg.pause_price = cfg.stop_price ∧ cfg.stop_price = -1) →
      bid ≤ 0 ∨ ask ≤ 0 ∨ ask ≤ bid →
      check_price_condition cfg bid ask =
        Except.error "No bid/ask data available") ∧
    (∀ (cfg : TradingConfig) (side : String) (q : ℚ) (k : Nat)
        (att : CloseAttempt) (rest : List CloseAttempt),
      ∃ evs, (closeRetryGo cfg side q k (att :: rest)).2 =
        CloseEvent.placeLimit q
          (closeAttemptPrice side att.best_bid att.best_ask cfg.tick_size k)
          side :: evs) := by
  refine ⟨?_, ?_, ?_⟩
  · intro cfg o rest bid ask h
    unfold meet_grid_step_condition
    rcases h with h | h | h <;> simp [h, ge_iff_le]
  · intro cfg bid ask hne h
    unfold check_price_condition
    rw [if_neg hne]
    rcases h with h | h | h <;> simp [h, ge_iff_le]
  · intro cfg side q k att rest
    exact closeRetryGo_head cfg side q k att rest

/-- Witness for the amended C7 at concrete invalid books. -/
theorem C7_bbo_validation_witness :
    meet_grid_step_condition sampleConfig [⟨1, 2020, 1/10⟩] 0 0 =
      Except.error "No bid/ask data available" ∧
    check_price_condition { sampleConfig with stop_price := 5000 } 0 0 =
      Except.error "No bid/ask data available" ∧
    (∃ evs, (closeRetryGo sampleConfig "sell" (1/10) 1
        [⟨0, 0, true, false, 0⟩]).2 =
      CloseEvent.placeLimit (1/10)
        (closeAttemptPrice "sell" 0 0 sampleConfig.tick_size 1)
        "sell" :: evs) :=
  ⟨C7_bbo_validation.1 sampleConfig ⟨1, 2020, 1/10⟩ [] 0 0 (Or.inl le_rfl),
   C7_bbo_validation.2.1 { sampleConfig with stop_price := 5000 } 0 0
     (by norm_num [sampleConfig]) (Or.inl le_rfl),
   C7_bbo_validation.2.2 sampleConfig "sell" (1/10) 1 ⟨0, 0, true, false, 0⟩ []⟩

end TradingBot
